import Mathlib

/-!
Verification of the uniplot interactive viewport state machine, tick
labeler and plot entry point, shallowly embedded from
`src/uniplot/uniplot.py`.  Real arithmetic is modelled by `ℚ` (exact
arithmetic); the Python literal `0.1` becomes `1/10 : ℚ`.  Components
that the provided sources only call (`uniplot.multi_series`,
`uniplot.param_initializer`, the tick generation in
`uniplot.plot_elements`) are modelled from the specification, as noted
on each definition.
-/

namespace Uniplot

/-- The data-space bounds `(x_min, x_max, y_min, y_max)` held by the
options object (`options.x_min` etc. in `uniplot.py`). -/
@[ext]
structure Bounds where
  x_min : ℚ
  x_max : ℚ
  y_min : ℚ
  y_max : ℚ
deriving Repr, DecidableEq

/-- The mutable state of one interactive `plot` session: the current
bounds, the reset target captured at session start (used by
`options.reset_view()`), and the fixed grid dimensions. -/
@[ext]
structure PlotState where
  bounds : Bounds
  original : Bounds
  width : ℕ
  height : ℕ
deriving Repr, DecidableEq

/-- `key_pressed == "h"`: pan left (lines 76-80 of `uniplot.py`). -/
def panLeft (b : Bounds) : Bounds :=
  let step := (1/10 : ℚ) * (b.x_max - b.x_min)
  { b with x_min := b.x_min - step, x_max := b.x_max - step }

/-- `key_pressed == "l"`: pan right (lines 81-85). -/
def panRight (b : Bounds) : Bounds :=
  let step := (1/10 : ℚ) * (b.x_max - b.x_min)
  { b with x_min := b.x_min + step, x_max := b.x_max + step }

/-- `key_pressed == "j"`: pan up, toward lower y values (lines 86-90). -/
def panUp (b : Bounds) : Bounds :=
  let step := (1/10 : ℚ) * (b.y_max - b.y_min)
  { b with y_min := b.y_min - step, y_max := b.y_max - step }

/-- `key_pressed == "k"`: pan down (lines 91-95). -/
def panDown (b : Bounds) : Bounds :=
  let step := (1/10 : ℚ) * (b.y_max - b.y_min)
  { b with y_min := b.y_min + step, y_max := b.y_max + step }

/-- `key_pressed == "u"`: zoom in (lines 96-103).  The x step is applied
first, then the y step is recomputed from the partially-updated bounds,
exactly as in the source. -/
def zoomIn (b : Bounds) : Bounds :=
  let stepx := (1/10 : ℚ) * (b.x_max - b.x_min)
  let b1 := { b with x_min := b.x_min + stepx, x_max := b.x_max - stepx }
  let stepy := (1/10 : ℚ) * (b1.y_max - b1.y_min)
  { b1 with y_min := b1.y_min + stepy, y_max := b1.y_max - stepy }

/-- `key_pressed == "n"`: zoom out (lines 104-111). -/
def zoomOut (b : Bounds) : Bounds :=
  let stepx := (1/10 : ℚ) * (b.x_max - b.x_min)
  let b1 := { b with x_min := b.x_min - stepx, x_max := b.x_max + stepx }
  let stepy := (1/10 : ℚ) * (b1.y_max - b1.y_min)
  { b1 with y_min := b1.y_min - stepy, y_max := b1.y_max + stepy }

/-- The escape key, `"\x1b"` in the source. -/
def escKey : Char := Char.ofNat 27

/-- One iteration of the interactive branch of `plot`'s main loop
(lines 76-116 of `uniplot.py`): given the lowercased key pressed,
returns the updated session state and the value of `continue_looping`
at the end of the iteration.  `r` is `options.reset_view()`, restoring
the bounds captured at session start; `q` and escape set
`continue_looping = False`; any other key falls through the `elif`
chain leaving the state untouched. -/
def applyKey (s : PlotState) (key : Char) : PlotState × Bool :=
  if key = 'h' then ({ s with bounds := panLeft s.bounds }, true)
  else if key = 'l' then ({ s with bounds := panRight s.bounds }, true)
  else if key = 'j' then ({ s with bounds := panUp s.bounds }, true)
  else if key = 'k' then ({ s with bounds := panDown s.bounds }, true)
  else if key = 'u' then ({ s with bounds := zoomIn s.bounds }, true)
  else if key = 'n' then ({ s with bounds := zoomOut s.bounds }, true)
  else if key = 'r' then ({ s with bounds := s.original }, true)
  else if key = 'q' ∨ key = escKey then (s, false)
  else (s, true)

/-- The keys recognized by the `elif` chain. -/
def recognizedKeys : List Char :=
  ['h', 'j', 'k', 'l', 'u', 'n', 'r', 'q', escKey]

/-- The invariant on bounds from the spec's data model:
`x_min < x_max` and `y_min < y_max`. -/
def ValidBounds (b : Bounds) : Prop :=
  b.x_min < b.x_max ∧ b.y_min < b.y_max

instance (b : Bounds) : Decidable (ValidBounds b) := by
  unfold ValidBounds; infer_instance

/-- A concrete session state used to instantiate theorems with
hypotheses. -/
def sampleState : PlotState :=
  { bounds := ⟨0, 10, 0, 10⟩, original := ⟨0, 10, 0, 10⟩, width := 60, height := 17 }

/-- Modelled from the spec: the power `10^e` for an integer exponent,
used by the nice-number step selection of §4.3 (the tick generation in
`uniplot.plot_elements` is not among the provided sources). -/
def pow10 (e : ℤ) : ℚ :=
  if 0 ≤ e then ((10 ^ e.toNat : ℕ) : ℚ) else 1 / ((10 ^ (-e).toNat : ℕ) : ℚ)

/-- The list of `n` consecutive integers starting at `lo`. -/
def expRange (lo : ℤ) (n : ℕ) : List ℤ :=
  (List.range n).map fun i => lo + Int.ofNat i

/-- Modelled from the spec: the candidate nice step values
`{1, 2, 5} · 10^e` for `e` ranging over `[lo, hi]`, in ascending order
(§4.3). -/
def niceCandidates (lo hi : ℤ) : List ℚ :=
  (expRange lo (hi - lo).toNat.succ).flatMap fun e =>
    [pow10 e, 2 * pow10 e, 5 * pow10 e]

/-- The smallest candidate that is `≥ raw`; the upper end of the range
is a power of ten exceeding `raw`, so the fallback is never reached for
positive `raw`. -/
def niceSearch (raw : ℚ) (lo hi : ℤ) : ℚ :=
  (((niceCandidates lo hi).find? fun c => decide (raw ≤ c)).getD (pow10 hi))

/-- Modelled from the spec (§4.3): round `raw` up to the nearest value
in `{1, 2, 5} × 10^k`.  The candidate exponents are bracketed using the
decimal lengths of the numerator and denominator of `raw`: for
`raw = p/q > 0` we have `10^(-(log₁₀ q + 2)) < 1/q ≤ raw ≤ p <
10^(log₁₀ p + 1)`, so the minimal nice value `≥ raw` lies in that
exponent range. -/
def niceStep (raw : ℚ) : ℚ :=
  niceSearch raw (-(Nat.log 10 raw.den + 2 : ℕ) : ℤ) ((Nat.log 10 raw.num.toNat + 1 : ℕ) : ℤ)

/-- Modelled from the spec (§4.3): the first multiple of `step` that is
`≥ rmin`. -/
def tickStart (rmin step : ℚ) : ℚ := ⌈rmin / step⌉ * step

/-- The number of multiples of `step` lying in `[tickStart, rmax]`. -/
def numTicks (rmin rmax step : ℚ) : ℕ :=
  (⌊(rmax - tickStart rmin step) / step⌋ + 1).toNat

/-- Modelled from the spec (§4.3): tick positions for the range
`(rmin, rmax)` with `slots` character slots: step `niceStep` of
`raw_step = (rmax - rmin) / slots`, positions starting at the first
multiple of the step `≥ rmin`, stepping by the step, up to `rmax`. -/
def ticks (rmin rmax : ℚ) (slots : ℕ) : List ℚ :=
  (List.range (numTicks rmin rmax (niceStep ((rmax - rmin) / (slots : ℚ))))).map
    fun (i : ℕ) => tickStart rmin (niceStep ((rmax - rmin) / (slots : ℚ))) +
      (i : ℚ) * niceStep ((rmax - rmin) / (slots : ℚ))

/-- The input-validation failure taxonomy of §7. -/
inductive PlotError where
  | shapeMismatch
  | invalidDimension
  | labelCountMismatch
deriving Repr, DecidableEq

/-- Modelled from the spec: `MultiSeries` normalization (§4.1);
`uniplot/multi_series.py` is not among the provided sources.  Fails
with `ShapeMismatch` when xs is supplied with a differing series count
or differing per-series lengths; when xs is omitted, synthesizes x as
the 0-based index within each series. -/
def multiSeries (xs : Option (List (List ℚ))) (ys : List (List ℚ)) :
    Except PlotError (List (List (ℚ × ℚ))) :=
  match xs with
  | none => Except.ok (ys.map fun y => y.enum.map fun p => ((p.1 : ℚ), p.2))
  | some x =>
      if x.length = ys.length ∧ ∀ p ∈ x.zip ys, p.1.length = p.2.length then
        Except.ok ((x.zip ys).map fun p => p.1.zip p.2)
      else Except.error PlotError.shapeMismatch

/-- The configuration options relevant to validation. -/
structure PlotKwargs where
  width : ℤ
  height : ℤ
  title : Option String
  legend_labels : Option (List String)
deriving Repr, DecidableEq

/-- Modelled from the spec: `validate_and_transform_options` (§4.2);
`uniplot/param_initializer.py` is not among the provided sources.
Fails with `InvalidDimension` if width or height is non-positive, and
`LabelCountMismatch` if the legend label count differs from the series
count. -/
def validateOptions (series : List (List (ℚ × ℚ))) (kw : PlotKwargs) :
    Except PlotError Unit :=
  if kw.width ≤ 0 ∨ kw.height ≤ 0 then Except.error PlotError.invalidDimension
  else
    match kw.legend_labels with
    | some labels =>
        if labels.length = series.length then Except.ok ()
        else Except.error PlotError.labelCountMismatch
    | none => Except.ok ()

/-- The output behaviour of `plot` (lines 23-69 of `uniplot.py`):
series normalization (line 23) and option validation (line 24) run
before the title print (lines 27-28) and the render loop's border, row,
axis-label and legend prints; a raised validation error therefore
escapes before anything is printed.  The rendered body lines are
produced by the external rasterizer and elements collaborators and are
passed in as `render`.  Returns the printed lines together with the
validation error, if any. -/
def plotOutput (ys : List (List ℚ)) (xs : Option (List (List ℚ))) (kw : PlotKwargs)
    (render : List String) : List String × Option PlotError :=
  match multiSeries xs ys with
  | Except.error e => ([], some e)
  | Except.ok series =>
      match validateOptions series kw with
      | Except.error e => ([], some e)
      | Except.ok _ =>
          ((match kw.title with | some t => [t] | none => []) ++ render, none)

/-- A concrete invalid configuration: two legend labels. -/
def kwTwoLabels : PlotKwargs :=
  { width := 60, height := 17, title := none, legend_labels := some ["a", "b"] }

end Uniplot

namespace Uniplot

theorem pow10_neg2 : pow10 (-2) = 1/100 := by
  rw [pow10, if_neg (by decide), show (-(-2) : ℤ).toNat = 2 from by decide]
  norm_num

theorem pow10_neg1 : pow10 (-1) = 1/10 := by
  rw [pow10, if_neg (by decide), show (-(-1) : ℤ).toNat = 1 from by decide]
  norm_num

theorem pow10_zero : pow10 0 = 1 := by
  rw [pow10, if_pos (by decide), show (0 : ℤ).toNat = 0 from by decide]
  norm_num

theorem pow10_one : pow10 1 = 10 := by
  rw [pow10, if_pos (by decide), show (1 : ℤ).toNat = 1 from by decide]
  norm_num

theorem pow10_two : pow10 2 = 100 := by
  rw [pow10, if_pos (by decide), show (2 : ℤ).toNat = 2 from by decide]
  norm_num

theorem cand_concrete : niceCandidates (-2) 2 =
    [1/100, 1/50, 1/20, 1/10, 1/5, 1/2, 1, 2, 5, 10, 20, 50, 100, 200, 500] := by
  unfold niceCandidates
  rw [show ((2 : ℤ) - (-2)).toNat.succ = 5 from by decide,
    show expRange (-2) 5 = [-2, -1, 0, 1, 2] from by decide]
  simp only [List.flatMap_cons, List.flatMap_nil, List.append_nil, List.cons_append,
    List.nil_append]
  rw [pow10_neg2, pow10_neg1, pow10_zero, pow10_one, pow10_two]
  norm_num

theorem search_concrete : niceSearch 10 (-2) 2 = 10 := by
  unfold niceSearch
  rw [cand_concrete]
  norm_num [List.find?]

theorem niceStep_concrete : niceStep 10 = 10 := by
  have h1 : (10:ℚ).num = 10 := by norm_num
  have h2 : (10:ℚ).den = 1 := by norm_num
  have harg1 : (-(Nat.log 10 (10:ℚ).den + 2 : ℕ) : ℤ) = -2 := by
    rw [h2, Nat.log_one_right]; decide
  have harg2 : ((Nat.log 10 (10:ℚ).num.toNat + 1 : ℕ) : ℤ) = 2 := by
    rw [h1, show Int.toNat 10 = 10 from rfl,
      show Nat.log 10 10 = 1 by rw [Nat.log_eq_of_pow_le_of_lt_pow] <;> norm_num]
    decide
  unfold niceStep
  rw [harg1, harg2, search_concrete]

theorem ticks_concrete : ticks 0 100 10 = [0, 10, 20, 30, 40, 50, 60, 70, 80, 90, 100] := by
  have h0 : ((100:ℚ) - 0) / ((10:ℕ):ℚ) = 10 := by norm_num
  have hts : tickStart 0 10 = 0 := by norm_num [tickStart]
  have h11 : Int.toNat 11 = 11 := by decide
  have hnt : numTicks 0 100 10 = 11 := by
    norm_num [numTicks, tickStart, h11]
  unfold ticks
  rw [h0, niceStep_concrete, hnt, hts]
  rw [show List.range 11 = [0,1,2,3,4,5,6,7,8,9,10] from rfl]
  norm_num

theorem pow10_pos (e : ℤ) : 0 < pow10 e := by
  unfold pow10
  split_ifs <;> positivity

theorem le_niceSearch (raw : ℚ) (lo hi : ℤ) (h : raw ≤ pow10 hi) :
    raw ≤ niceSearch raw lo hi := by
  unfold niceSearch
  cases hf : List.find? (fun c => decide (raw ≤ c)) (niceCandidates lo hi) with
  | none => simpa [hf] using h
  | some c =>
      rw [Option.getD_some]
      exact of_decide_eq_true (List.find?_some (p := fun c => decide (raw ≤ c)) hf)

theorem le_niceStep (raw : ℚ) : raw ≤ niceStep raw := by
  apply le_niceSearch
  rcases le_or_lt raw 0 with h | h
  · exact h.trans (pow10_pos _).le
  · have hnum : 0 < raw.num := Rat.num_pos.mpr h
    have h1 : raw ≤ (raw.num : ℚ) := by
      conv_lhs => rw [← Rat.num_div_den raw]
      apply div_le_self
      · exact_mod_cast hnum.le
      · exact_mod_cast raw.den_pos
    have h2 : raw.num.toNat < 10 ^ (Nat.log 10 raw.num.toNat + 1) :=
      Nat.lt_pow_succ_log_self (by norm_num) _
    have h3 : ((raw.num.toNat : ℤ) : ℚ) = (raw.num : ℚ) := by
      rw [Int.toNat_of_nonneg hnum.le]
    unfold pow10
    rw [if_pos (by exact_mod_cast Nat.zero_le _), Int.toNat_natCast]
    calc raw ≤ (raw.num : ℚ) := h1
      _ = ((raw.num.toNat : ℤ) : ℚ) := h3.symm
      _ ≤ ((10 ^ (Nat.log 10 raw.num.toNat + 1) : ℕ) : ℚ) := by exact_mod_cast h2.le

theorem ticks_length_le (rmin rmax : ℚ) (slots : ℕ) (h0 : 0 < slots) (hlt : rmin < rmax) :
    (ticks rmin rmax slots).length ≤ slots + 1 := by
  have hslots : (0:ℚ) < (slots : ℚ) := by exact_mod_cast h0
  have hraw : 0 < (rmax - rmin) / (slots : ℚ) := div_pos (by linarith) hslots
  have hs := le_niceStep ((rmax - rmin) / (slots : ℚ))
  set st := niceStep ((rmax - rmin) / (slots : ℚ)) with hst
  have hpos : 0 < st := lt_of_lt_of_le hraw hs
  have hlen : (ticks rmin rmax slots).length = numTicks rmin rmax st := by
    rw [ticks, List.length_map, List.length_range]
  rw [hlen]
  unfold numTicks
  have hstart : rmin ≤ tickStart rmin st := by
    unfold tickStart
    have h1 := Int.le_ceil (rmin / st)
    have h2 := mul_le_mul_of_nonneg_right h1 hpos.le
    rwa [div_mul_cancel₀ _ hpos.ne'] at h2
  have h3 : rmax - rmin ≤ (slots : ℚ) * st := by
    rw [div_le_iff₀ hslots] at hs
    linarith [mul_comm st (slots : ℚ), hs]
  have hub : (rmax - tickStart rmin st) / st ≤ (slots : ℚ) := by
    rw [div_le_iff₀ hpos]
    linarith
  have hfl : ⌊(rmax - tickStart rmin st) / st⌋ ≤ (slots : ℤ) := by
    have h4 := Int.floor_le_floor hub
    rwa [Int.floor_natCast] at h4
  omega

end Uniplot

namespace Uniplot

/-- Claim C1: each pan transition shifts both endpoints of exactly one
axis by 0.1 times that axis's current extent, recomputed from the
bounds at the moment of the transition: pan-left (`h`) subtracts
`0.1·(x_max−x_min)` from both x endpoints, pan-right (`l`) adds it to
both, pan-up (`j`) subtracts `0.1·(y_max−y_min)` from both y endpoints,
and pan-down (`k`) adds it to both. -/
theorem C1_pan_transitions (s : PlotState) :
    (applyKey s 'h').1.bounds =
      { s.bounds with
        x_min := s.bounds.x_min - (1/10 : ℚ) * (s.bounds.x_max - s.bounds.x_min),
        x_max := s.bounds.x_max - (1/10 : ℚ) * (s.bounds.x_max - s.bounds.x_min) } ∧
    (applyKey s 'l').1.bounds =
      { s.bounds with
        x_min := s.bounds.x_min + (1/10 : ℚ) * (s.bounds.x_max - s.bounds.x_min),
        x_max := s.bounds.x_max + (1/10 : ℚ) * (s.bounds.x_max - s.bounds.x_min) } ∧
    (applyKey s 'j').1.bounds =
      { s.bounds with
        y_min := s.bounds.y_min - (1/10 : ℚ) * (s.bounds.y_max - s.bounds.y_min),
        y_max := s.bounds.y_max - (1/10 : ℚ) * (s.bounds.y_max - s.bounds.y_min) } ∧
    (applyKey s 'k').1.bounds =
      { s.bounds with
        y_min := s.bounds.y_min + (1/10 : ℚ) * (s.bounds.y_max - s.bounds.y_min),
        y_max := s.bounds.y_max + (1/10 : ℚ) * (s.bounds.y_max - s.bounds.y_min) } := by
  refine ⟨?_, ?_, ?_, ?_⟩ <;> rfl

/-- Claim C2: zoom-in (`u`) adds 0.1 of the current x-extent to `x_min`
and subtracts it from `x_max`, and adds 0.1 of the current y-extent to
`y_min` and subtracts it from `y_max`, each delta computed from the
bounds before the transition; zoom-out (`n`) performs the same updates
with all signs inverted. -/
theorem C2_zoom_transitions (s : PlotState) :
    (applyKey s 'u').1.bounds =
      { x_min := s.bounds.x_min + (1/10 : ℚ) * (s.bounds.x_max - s.bounds.x_min),
        x_max := s.bounds.x_max - (1/10 : ℚ) * (s.bounds.x_max - s.bounds.x_min),
        y_min := s.bounds.y_min + (1/10 : ℚ) * (s.bounds.y_max - s.bounds.y_min),
        y_max := s.bounds.y_max - (1/10 : ℚ) * (s.bounds.y_max - s.bounds.y_min) } ∧
    (applyKey s 'n').1.bounds =
      { x_min := s.bounds.x_min - (1/10 : ℚ) * (s.bounds.x_max - s.bounds.x_min),
        x_max := s.bounds.x_max + (1/10 : ℚ) * (s.bounds.x_max - s.bounds.x_min),
        y_min := s.bounds.y_min - (1/10 : ℚ) * (s.bounds.y_max - s.bounds.y_min),
        y_max := s.bounds.y_max + (1/10 : ℚ) * (s.bounds.y_max - s.bounds.y_min) } := by
  constructor <;> rfl

/-- Claim C4: pan-right followed by pan-left, each delta computed from
the then-current bounds, returns the session state exactly to its
original value (exact arithmetic). -/
theorem C4_pan_right_left_inverse (s : PlotState) :
    (applyKey (applyKey s 'l').1 'h').1 = s := by
  simp only [applyKey, panRight, panLeft]
  norm_num
  ext <;> simp

/-- Claim C10: zoom-in and zoom-out each preserve the midpoint of both
axes exactly: `(x_min + x_max)/2` and `(y_min + y_max)/2` are unchanged
by the transition. -/
theorem C10_zoom_preserves_midpoints (s : PlotState) :
    ((applyKey s 'u').1.bounds.x_min + (applyKey s 'u').1.bounds.x_max) / 2 =
      (s.bounds.x_min + s.bounds.x_max) / 2 ∧
    ((applyKey s 'u').1.bounds.y_min + (applyKey s 'u').1.bounds.y_max) / 2 =
      (s.bounds.y_min + s.bounds.y_max) / 2 ∧
    ((applyKey s 'n').1.bounds.x_min + (applyKey s 'n').1.bounds.x_max) / 2 =
      (s.bounds.x_min + s.bounds.x_max) / 2 ∧
    ((applyKey s 'n').1.bounds.y_min + (applyKey s 'n').1.bounds.y_max) / 2 =
      (s.bounds.y_min + s.bounds.y_max) / 2 := by
  refine ⟨?_, ?_, ?_, ?_⟩ <;> simp [applyKey, zoomIn, zoomOut]

/-- Claim C3: starting from bounds satisfying `x_min < x_max` and
`y_min < y_max` (the session's reset target satisfying the same
invariant, as guaranteed by the options initialization), every single
keystroke transition, evaluated in exact arithmetic, preserves the
invariant in the resulting bounds. -/
theorem C3_transitions_preserve_invariant (s : PlotState) (key : Char)
    (hb : ValidBounds s.bounds) (ho : ValidBounds s.original) :
    ValidBounds (applyKey s key).1.bounds := by
  obtain ⟨hx, hy⟩ := hb
  obtain ⟨hox, hoy⟩ := ho
  unfold applyKey
  split_ifs <;>
    simp_all only [ValidBounds, panLeft, panRight, panUp, panDown, zoomIn, zoomOut] <;>
    constructor <;> simp <;> linarith

/-- Witness for C3 at a concrete state and the zoom-in key. -/
theorem C3_transitions_preserve_invariant_witness :
    ValidBounds (applyKey sampleState 'u').1.bounds :=
  C3_transitions_preserve_invariant sampleState 'u' (by decide) (by decide)

/-- Claim C5: zoom-in followed by zoom-out does not restore the
original bounds: each axis's resulting extent equals 0.96 times the
original extent, hence is strictly smaller when the original extents
are positive. -/
theorem C5_zoom_in_out_narrows (s : PlotState)
    (hx : 0 < s.bounds.x_max - s.bounds.x_min)
    (hy : 0 < s.bounds.y_max - s.bounds.y_min) :
    ((applyKey (applyKey s 'u').1 'n').1.bounds.x_max -
        (applyKey (applyKey s 'u').1 'n').1.bounds.x_min =
      (96/100 : ℚ) * (s.bounds.x_max - s.bounds.x_min)) ∧
    ((applyKey (applyKey s 'u').1 'n').1.bounds.y_max -
        (applyKey (applyKey s 'u').1 'n').1.bounds.y_min =
      (96/100 : ℚ) * (s.bounds.y_max - s.bounds.y_min)) ∧
    (applyKey (applyKey s 'u').1 'n').1.bounds.x_max -
        (applyKey (applyKey s 'u').1 'n').1.bounds.x_min <
      s.bounds.x_max - s.bounds.x_min ∧
    (applyKey (applyKey s 'u').1 'n').1.bounds.y_max -
        (applyKey (applyKey s 'u').1 'n').1.bounds.y_min <
      s.bounds.y_max - s.bounds.y_min ∧
    (applyKey (applyKey s 'u').1 'n').1.bounds ≠ s.bounds := by
  have hex : (applyKey (applyKey s 'u').1 'n').1.bounds.x_max -
      (applyKey (applyKey s 'u').1 'n').1.bounds.x_min =
      (96/100 : ℚ) * (s.bounds.x_max - s.bounds.x_min) := by
    simp [applyKey, zoomIn, zoomOut]; ring
  have hey : (applyKey (applyKey s 'u').1 'n').1.bounds.y_max -
      (applyKey (applyKey s 'u').1 'n').1.bounds.y_min =
      (96/100 : ℚ) * (s.bounds.y_max - s.bounds.y_min) := by
    simp [applyKey, zoomIn, zoomOut]; ring
  refine ⟨hex, hey, ?_, ?_, ?_⟩
  · rw [hex]; linarith
  · rw [hey]; linarith
  · intro h
    rw [h] at hex
    linarith

/-- Witness for C5 at a concrete state. -/
theorem C5_zoom_in_out_narrows_witness :
    (applyKey (applyKey sampleState 'u').1 'n').1.bounds ≠ sampleState.bounds :=
  (C5_zoom_in_out_narrows sampleState (by norm_num [sampleState])
    (by norm_num [sampleState])).2.2.2.2

/-- Claim C6: pan-left and pan-right leave the y bounds unchanged,
pan-up and pan-down leave the x bounds unchanged, and no keystroke
transition changes the grid width or height. -/
theorem C6_frame_effects (s : PlotState) (key : Char) :
    ((applyKey s 'h').1.bounds.y_min = s.bounds.y_min ∧
     (applyKey s 'h').1.bounds.y_max = s.bounds.y_max) ∧
    ((applyKey s 'l').1.bounds.y_min = s.bounds.y_min ∧
     (applyKey s 'l').1.bounds.y_max = s.bounds.y_max) ∧
    ((applyKey s 'j').1.bounds.x_min = s.bounds.x_min ∧
     (applyKey s 'j').1.bounds.x_max = s.bounds.x_max) ∧
    ((applyKey s 'k').1.bounds.x_min = s.bounds.x_min ∧
     (applyKey s 'k').1.bounds.x_max = s.bounds.x_max) ∧
    (applyKey s key).1.width = s.width ∧
    (applyKey s key).1.height = s.height := by
  refine ⟨⟨rfl, rfl⟩, ⟨rfl, rfl⟩, ⟨rfl, rfl⟩, ⟨rfl, rfl⟩, ?_, ?_⟩ <;>
    (unfold applyKey; split_ifs <;> rfl)

/-- Claim C7: the iteration's `continue_looping` flag is false exactly
when the (lowercased) key read is `q` or escape; that quit transition
leaves the whole state unchanged; and any key outside the recognized
set `h,j,k,l,u,n,r,q,escape` leaves the state unchanged with the loop
continuing. -/
theorem C7_loop_control (s : PlotState) (key : Char) :
    ((applyKey s key).2 = false ↔ (key = 'q' ∨ key = escKey)) ∧
    ((key = 'q' ∨ key = escKey) → (applyKey s key).1 = s) ∧
    (key ∉ recognizedKeys → (applyKey s key).1 = s ∧ (applyKey s key).2 = true) := by
  have e1 : ('h' : Char) ≠ escKey := by decide
  have e2 : ('l' : Char) ≠ escKey := by decide
  have e3 : ('j' : Char) ≠ escKey := by decide
  have e4 : ('k' : Char) ≠ escKey := by decide
  have e5 : ('u' : Char) ≠ escKey := by decide
  have e6 : ('n' : Char) ≠ escKey := by decide
  have e7 : ('r' : Char) ≠ escKey := by decide
  unfold applyKey recognizedKeys
  split_ifs with h1 h2 h3 h4 h5 h6 h7 h8 <;> simp_all

/-- Witness for C7: an unrecognized key at a concrete state is a no-op
and keeps the loop running. -/
theorem C7_loop_control_witness :
    (applyKey sampleState 'x').1 = sampleState ∧ (applyKey sampleState 'x').2 = true :=
  (C7_loop_control sampleState 'x').2.2 (by decide)

/-- Claim C8: any validation failure (ShapeMismatch, InvalidDimension
or LabelCountMismatch) is raised before any rendering output is
produced, so a validation error yields no partial render: whenever
`plotOutput` reports an error, its list of printed lines is empty. -/
theorem C8_no_partial_render (ys : List (List ℚ)) (xs : Option (List (List ℚ)))
    (kw : PlotKwargs) (render : List String) (e : PlotError)
    (h : (plotOutput ys xs kw render).2 = some e) :
    (plotOutput ys xs kw render).1 = [] := by
  cases hms : multiSeries xs ys with
  | error e2 => simp [plotOutput, hms]
  | ok series =>
      cases hv : validateOptions series kw with
      | error e2 => simp [plotOutput, hms, hv]
      | ok u => simp [plotOutput, hms, hv] at h

/-- Witness for C8: two legend labels with a single series trigger
`LabelCountMismatch`, and nothing is printed. -/
theorem C8_no_partial_render_witness :
    (plotOutput [[]] none kwTwoLabels ["row"]).1 = [] :=
  C8_no_partial_render [[]] none kwTwoLabels ["row"] PlotError.labelCountMismatch rfl

/-- Claim C9, counterexample to the bound as stated: for range (0, 100)
with 10 slots the labeler returns 11 ticks (0, 10, ..., 100), which
exceeds the slot count of 10. -/
theorem C9_tick_count_counterexample : ¬ ((ticks 0 100 10).length ≤ 10) := by
  rw [ticks_concrete]; decide

/-- Claim C9 (amended): the tick labeler returns at most `slot_count + 1`
ticks; in particular for range (0, 100) with 10 slots it selects step 10
and returns ticks at 0, 10, 20, ..., 100 (11 ticks). -/
theorem C9_tick_count (rmin rmax : ℚ) (slots : ℕ)
    (h0 : 0 < slots) (hlt : rmin < rmax) :
    (ticks rmin rmax slots).length ≤ slots + 1 ∧
    niceStep (((100 : ℚ) - 0) / ((10 : ℕ) : ℚ)) = 10 ∧
    ticks 0 100 10 = [0, 10, 20, 30, 40, 50, 60, 70, 80, 90, 100] :=
  ⟨ticks_length_le rmin rmax slots h0 hlt,
   by rw [show ((100:ℚ) - 0) / ((10:ℕ):ℚ) = 10 by norm_num]; exact niceStep_concrete,
   ticks_concrete⟩

/-- Witness for C9 at the concrete range (0, 100) with 10 slots. -/
theorem C9_tick_count_witness : (ticks 0 100 10).length ≤ 10 + 1 :=
  (C9_tick_count 0 100 10 (by norm_num) (by norm_num)).1

end Uniplot
